import Mathlib

/-!
Verification development for `scripts/validate_spec.py` (SDD Spec Validator).

The engine consumes already-parsed document trees (the Python code parses
YAML/JSON; parsing itself is I/O glue outside the engine).  We embed the
generic parsed-tree values as `Yaml` below, together with the fragments of
Python runtime semantics the script relies on: truthiness, `dict.get` with a
default, `len`, iteration, `in`, subscripting, `str.startswith`, and
f-string rendering (`str()`).  Operations that raise a Python exception
(`TypeError`, `AttributeError`) are modelled in `Except String`.

A document that failed to load or parse is `Yaml.null`: `load_yaml` /
`load_json` return Python `None` both on failure and when the parsed content
is empty, so the two are indistinguishable downstream, exactly as in the
source.
-/

mutual
inductive Yaml where
  | null
  | bool (b : Bool)
  | int (n : Int)
  | str (s : String)
  | list (xs : YList)
  | dict (kvs : YDict)
inductive YList where
  | nil
  | cons (hd : Yaml) (tl : YList)
inductive YDict where
  | nil
  | cons (k : String) (v : Yaml) (tl : YDict)
end

/-! Python `==` on parsed-tree values (structural equality). -/
mutual
def Yaml.beq : Yaml → Yaml → Bool
  | .null, .null => true
  | .bool a, .bool b => a == b
  | .int a, .int b => a == b
  | .str a, .str b => a == b
  | .list a, .list b => YList.beq a b
  | .dict a, .dict b => YDict.beq a b
  | _, _ => false
def YList.beq : YList → YList → Bool
  | .nil, .nil => true
  | .cons a as, .cons b bs => Yaml.beq a b && YList.beq as bs
  | _, _ => false
def YDict.beq : YDict → YDict → Bool
  | .nil, .nil => true
  | .cons k v t, .cons k2 v2 t2 => k == k2 && Yaml.beq v v2 && YDict.beq t t2
  | _, _ => false
end

def YList.length : YList → Nat
  | .nil => 0
  | .cons _ tl => 1 + tl.length

def YDict.length : YDict → Nat
  | .nil => 0
  | .cons _ _ tl => 1 + tl.length

/-- Python dict lookup.  `YDict` models a Python dict, whose keys are unique
by construction, so first-match lookup is ordinary dict access. -/
def YDict.lookup : YDict → String → Option Yaml
  | .nil, _ => none
  | .cons k v tl, key => if k == key then some v else tl.lookup key

def YDict.keys : YDict → YList
  | .nil => .nil
  | .cons k _ tl => .cons (.str k) tl.keys

/-- Set/list membership (`x in xs`) via Python `==`. -/
def YList.containsY : YList → Yaml → Bool
  | .nil, _ => false
  | .cons x tl, y => Yaml.beq x y || tl.containsY y

/-- Python truthiness: `None`, `False`, `0`, `""`, `[]`, `{}` are falsy. -/
def Yaml.truthy : Yaml → Bool
  | .null => false
  | .bool b => b
  | .int n => n != 0
  | .str s => s != ""
  | .list .nil => false
  | .list (.cons _ _) => true
  | .dict .nil => false
  | .dict (.cons _ _ _) => true

/-! Python `str()` / f-string rendering of a parsed-tree value. -/
mutual
def Yaml.pyRepr : Yaml → String
  | .null => "None"
  | .bool true => "True"
  | .bool false => "False"
  | .int n => toString n
  | .str s => "\x27" ++ s ++ "\x27"
  | .list xs => "[" ++ YList.reprItems xs ++ "]"
  | .dict kvs => "\x7b" ++ YDict.reprItems kvs ++ "\x7d"
def YList.reprItems : YList → String
  | .nil => ""
  | .cons x .nil => Yaml.pyRepr x
  | .cons x tl => Yaml.pyRepr x ++ ", " ++ YList.reprItems tl
def YDict.reprItems : YDict → String
  | .nil => ""
  | .cons k v .nil => "\x27" ++ k ++ "\x27: " ++ Yaml.pyRepr v
  | .cons k v tl => "\x27" ++ k ++ "\x27: " ++ Yaml.pyRepr v ++ ", " ++ YDict.reprItems tl
end

/-- `str(x)`: strings render bare, everything else as its repr. -/
def Yaml.pyStr : Yaml → String
  | .str s => s
  | y => y.pyRepr

/-- Python `len()`: defined on strings, lists and dicts; `TypeError` otherwise
(in particular on `None`). -/
def Yaml.pyLen : Yaml → Except String Nat
  | .str s => .ok s.length
  | .list xs => .ok xs.length
  | .dict kvs => .ok kvs.length
  | _ => .error "TypeError: object has no len()"

def charsToYList : List Char → YList
  | [] => .nil
  | c :: cs => .cons (.str (String.mk [c])) (charsToYList cs)

/-- Python iteration: lists yield their items, strings their characters,
dicts their keys; `TypeError` otherwise. -/
def Yaml.pyIter : Yaml → Except String YList
  | .list xs => .ok xs
  | .str s => .ok (charsToYList s.toList)
  | .dict kvs => .ok kvs.keys
  | _ => .error "TypeError: object is not iterable"

/-- Python `dict.get(key, default)`: `AttributeError` when the receiver is
not a dict (no `get` attribute). -/
def Yaml.pyGet : Yaml → String → Yaml → Except String Yaml
  | .dict kvs, k, dflt => .ok ((kvs.lookup k).getD dflt)
  | _, _, _ => .error "AttributeError: object has no attribute get"

def charsLeadWith : List Char → List Char → Bool
  | [], _ => true
  | _ :: _, [] => false
  | c :: cs, d :: ds => c == d && charsLeadWith cs ds

/-- `p` is a leading segment of `s` (Python `s.startswith(p)`). -/
def strLeadsWith (s p : String) : Bool := charsLeadWith p.toList s.toList

/-- Python `str.startswith`: `AttributeError` when the receiver is not a
string. -/
def Yaml.pyStartswith : Yaml → String → Except String Bool
  | .str s, p => .ok (strLeadsWith s p)
  | _, _ => .error "AttributeError: object has no attribute startswith"

def charsSearch : List Char → List Char → Bool
  | sub, [] => sub.isEmpty
  | sub, c :: cs => charsLeadWith sub (c :: cs) || charsSearch sub cs

/-- Python substring test `sub in s`. -/
def strContainsSub (s sub : String) : Bool := charsSearch sub.toList s.toList

/-- Python `key in x` for a string key: dict keys, list membership, substring
on strings; `TypeError` otherwise. -/
def Yaml.hasKeyStr : Yaml → String → Except String Bool
  | .dict kvs, k => .ok (kvs.lookup k).isSome
  | .list xs, k => .ok (xs.containsY (.str k))
  | .str s, k => .ok (strContainsSub s k)
  | _, _ => .error "TypeError: argument is not a container"

/-- Python `x[key]` for a string key (used only after `key in x` succeeded). -/
def Yaml.subscriptStr : Yaml → String → Except String Yaml
  | .dict kvs, k =>
    match kvs.lookup k with
    | some v => .ok v
    | none => .error "KeyError"
  | _, _ => .error "TypeError: object is not subscriptable"

/-! ## `collect_ids` -/

/-- The loop body of `collect_ids`: keep `item[id_field]` for every item that
is a dict containing `id_field`; silently skip everything else. -/
def collectFrom : YList → String → YList
  | .nil, _ => .nil
  | .cons item tl, f =>
    match item with
    | .dict fields =>
      match fields.lookup f with
      | some v => .cons v (collectFrom tl f)
      | none => collectFrom tl f
    | _ => collectFrom tl f

/-- `collect_ids(spec, key, id_field)`: `if key in spec and spec[key]:` then
collect ids from the items.  The Python `set` is modelled as the insertion
sequence; it is only ever consumed through membership tests. -/
def collect_ids (spec : YDict) (key idField : String) : Except String YList :=
  match spec.lookup key with
  | none => .ok .nil
  | some v =>
    if v.truthy then do
      let items ← v.pyIter
      return collectFrom items idField
    else .ok .nil

/-! ## `validate_referential_integrity` -/

/-- The mappings loop: for each record, a truthy `property_id` absent from
the Property id set yields one violation, then likewise `standard_id`
against the Standard id set. -/
def mappingCheck (properties standards : YList) : YList → Except String (List String)
  | .nil => .ok []
  | .cons m tl => do
    let pid ← m.pyGet "property_id" .null
    let sid ← m.pyGet "standard_id" .null
    let e1 := if pid.truthy && !(properties.containsY pid) then
        ["Mapping references unknown property: " ++ pid.pyStr] else []
    let e2 := if sid.truthy && !(standards.containsY sid) then
        ["Mapping references unknown standard: " ++ sid.pyStr] else []
    let rest ← mappingCheck properties standards tl
    return e1 ++ e2 ++ rest

/-- The verifications loop: `property_id` against Properties, `tool_id`
against Tools. -/
def verificationCheck (properties tools : YList) : YList → Except String (List String)
  | .nil => .ok []
  | .cons v tl => do
    let pid ← v.pyGet "property_id" .null
    let tid ← v.pyGet "tool_id" .null
    let e1 := if pid.truthy && !(properties.containsY pid) then
        ["Verification references unknown property: " ++ pid.pyStr] else []
    let e2 := if tid.truthy && !(tools.containsY tid) then
        ["Verification references unknown tool: " ++ tid.pyStr] else []
    let rest ← verificationCheck properties tools tl
    return e1 ++ e2 ++ rest

/-- `validate_referential_integrity(catalog)` with the two mapping documents
passed explicitly (in the source they are loaded from disk inside the
function; a failed load is `None`, i.e. `Yaml.null`). -/
def validate_referential_integrity (catalog : YDict) (prop_to_std verifications : Yaml) :
    Except String (List String) := do
  let standards ← collect_ids catalog "standards" "id"
  let tools ← collect_ids catalog "tools" "id"
  let properties ← collect_ids catalog "properties" "id"
  let errs1 ←
    if prop_to_std.truthy then do
      let has ← prop_to_std.hasKeyStr "mappings"
      if has then do
        let ms ← prop_to_std.subscriptStr "mappings"
        let items ← ms.pyIter
        mappingCheck properties standards items
      else pure []
    else pure []
  let errs2 ←
    if verifications.truthy then do
      let has ← verifications.hasKeyStr "verifications"
      if has then do
        let vs ← verifications.subscriptStr "verifications"
        let items ← vs.pyIter
        verificationCheck properties tools items
      else pure []
    else pure []
  return errs1 ++ errs2

/-! ## `validate_spec` -/

/-- The catalog built in step 2 of `validate_spec`: a dict with the three
fixed keys, each value `data.get(<key>, [])`. -/
structure Catalog where
  standards : Yaml
  properties : Yaml
  tools : Yaml

def Catalog.toDict (c : Catalog) : YDict :=
  .cons "standards" c.standards (.cons "properties" c.properties (.cons "tools" c.tools .nil))

def buildCatalog (standardsData propertiesData toolsData : Yaml) : Except String Catalog := do
  let s ← standardsData.pyGet "standards" (.list .nil)
  let p ← propertiesData.pyGet "properties" (.list .nil)
  let t ← toolsData.pyGet "tools" (.list .nil)
  return ⟨s, p, t⟩

/-- One ID-pattern loop of step 4: `if not ent.get("id", "").startswith(pfx)`
append `msg + str(ent.get("id"))` (note the second `get` defaults to `None`,
not `""`, exactly as in the source f-string). -/
def idPatternCheck (pfx msg : String) : YList → Except String (List String)
  | .nil => .ok []
  | .cons ent tl => do
    let idTest ← ent.pyGet "id" (.str "")
    let ok ← idTest.pyStartswith pfx
    let here ←
      if ok then pure ([] : List String)
      else do
        let idShow ← ent.pyGet "id" .null
        pure [msg ++ idShow.pyStr]
    let rest ← idPatternCheck pfx msg tl
    return here ++ rest

def valid_types : List Yaml := [.str "library", .str "custom_property", .str "ai_audit", .str "manual"]

/-- Step 5: `vtype = prop.get("verification_type")`; a truthy value outside
`valid_types` yields one violation. -/
def vtypeCheck : YList → Except String (List String)
  | .nil => .ok []
  | .cons prop tl => do
    let vt ← prop.pyGet "verification_type" .null
    let here ←
      if vt.truthy && !(valid_types.any fun t => Yaml.beq vt t) then do
        let idv ← prop.pyGet "id" .null
        pure ["Invalid verification_type \x27" ++ vt.pyStr ++ "\x27 in " ++ idv.pyStr]
      else pure ([] : List String)
    let rest ← vtypeCheck tl
    return here ++ rest

/-- Steps 4 and 5 of `validate_spec` (the Rule Checker): the three ID-pattern
loops over `catalog[...]`, then the verification-type loop over
`catalog["properties"]`, appended in source order. -/
def ruleErrors (catalog : Catalog) : Except String (List String) := do
  let stdItems ← catalog.standards.pyIter
  let stdErrs ← idPatternCheck "std:" "Standard ID must start with \x27std:\x27: " stdItems
  let propItems ← catalog.properties.pyIter
  let propErrs ← idPatternCheck "prop:" "Property ID must start with \x27prop:\x27: " propItems
  let toolItems ← catalog.tools.pyIter
  let toolErrs ← idPatternCheck "tool:" "Tool ID must start with \x27tool:\x27: " toolItems
  let vtErrs ← vtypeCheck propItems
  return stdErrs ++ propErrs ++ toolErrs ++ vtErrs

/-- Result of `validate_spec`: the two early `return False` paths (schema or
catalog documents falsy), or a completed run with its accumulated error list
and the three entity counts printed in step 2. -/
inductive Outcome where
  | schemaLoadFailure
  | catalogLoadFailure
  | finished (errors : List String) (nStandards nProperties nTools : Nat)
  deriving DecidableEq

/-- The six loaded documents handed to the engine; each is the loader's
result, `Yaml.null` when loading or parsing failed (Python `None`). -/
structure Docs where
  schema : Yaml
  standardsData : Yaml
  propertiesData : Yaml
  toolsData : Yaml
  propToStd : Yaml
  verifications : Yaml

/-- `validate_spec()`: load checks, catalog build, entity counts (`len`),
referential integrity, ID patterns, verification types, summary.  A raised
Python exception is `.error`. -/
def validate_spec (d : Docs) : Except String Outcome := do
  if d.schema.truthy = false then
    return Outcome.schemaLoadFailure
  if (d.standardsData.truthy && d.propertiesData.truthy && d.toolsData.truthy) = false then
    return Outcome.catalogLoadFailure
  let catalog ← buildCatalog d.standardsData d.propertiesData d.toolsData
  let nStd ← catalog.standards.pyLen
  let nProp ← catalog.properties.pyLen
  let nTool ← catalog.tools.pyLen
  let integrity ← validate_referential_integrity catalog.toDict d.propToStd d.verifications
  let rules ← ruleErrors catalog
  return Outcome.finished (integrity ++ rules) nStd nProp nTool

/-- `if errors: return False` / `return True`. -/
def Outcome.success : Outcome → Bool
  | .finished errors _ _ _ => errors.isEmpty
  | _ => false

/-- `sys.exit(0 if success else 1)`; an uncaught exception also exits
nonzero. -/
def exitCode : Except String Outcome → Nat
  | .ok o => if o.success then 0 else 1
  | .error _ => 1

/-! ## Shared concrete documents -/

def schemaDoc : Yaml := .dict (.cons "type" (.str "object") .nil)
def emptyStdDoc : Yaml := .dict (.cons "standards" (.list .nil) .nil)
def emptyPropDoc : Yaml := .dict (.cons "properties" (.list .nil) .nil)
def emptyToolDoc : Yaml := .dict (.cons "tools" (.list .nil) .nil)
def emptyCatalogDict : YDict := Catalog.toDict ⟨.list .nil, .list .nil, .list .nil⟩

/-! ## Reduction helpers for the `Except` monad -/

theorem exceptBind_ok {α β : Type} (a : α) (f : α → Except String β) :
    ((Except.ok a : Except String α) >>= f) = f a := rfl

theorem exceptBind_error {α β : Type} (e : String) (f : α → Except String β) :
    ((Except.error e : Except String α) >>= f) = Except.error e := rfl

theorem exceptPure {α : Type} (a : α) : (pure a : Except String α) = Except.ok a := rfl

/-- A completed run of `validate_spec`, assembled from the outcome of each
stage: the final error list is the Resolver output followed by the Rule
Checker output, and the counts are the three `len` results. -/
theorem validate_spec_run (sch sd pd td pts vf : Yaml) (cat : Catalog) (n1 n2 n3 : Nat)
    (ints rules : List String)
    (hsch : sch.truthy = true) (hsd : sd.truthy = true) (hpd : pd.truthy = true)
    (htd : td.truthy = true)
    (hcat : buildCatalog sd pd td = .ok cat)
    (h1 : cat.standards.pyLen = .ok n1) (h2 : cat.properties.pyLen = .ok n2)
    (h3 : cat.tools.pyLen = .ok n3)
    (hint : validate_referential_integrity cat.toDict pts vf = .ok ints)
    (hrule : ruleErrors cat = .ok rules) :
    validate_spec ⟨sch, sd, pd, td, pts, vf⟩ =
      .ok (.finished (ints ++ rules) n1 n2 n3) := by
  simp [validate_spec, hsch, hsd, hpd, htd, hcat, h1, h2, h3, hint, hrule,
    exceptBind_ok, exceptPure]

/-! ## Claims -/

/-- C1 (amended): for a loaded (truthy) catalog document, if the expected
top-level key is absent, or present with an empty-list value, the engine
treats that entity list as empty and proceeds, reporting an entity count of
zero for that type; this holds for all three catalog documents at once. -/
theorem C1_absent_or_empty_key_is_empty_list (ks ps ts : YDict)
    (h1 : ks.lookup "standards" = none ∨ ks.lookup "standards" = some (Yaml.list .nil))
    (h2 : ps.lookup "properties" = none ∨ ps.lookup "properties" = some (Yaml.list .nil))
    (h3 : ts.lookup "tools" = none ∨ ts.lookup "tools" = some (Yaml.list .nil))
    (hne1 : ks ≠ .nil) (hne2 : ps ≠ .nil) (hne3 : ts ≠ .nil) :
    validate_spec ⟨schemaDoc, .dict ks, .dict ps, .dict ts, .null, .null⟩ =
      .ok (.finished [] 0 0 0) := by
  have hks : (Yaml.dict ks).truthy = true := by
    cases ks with
    | nil => exact absurd rfl hne1
    | cons k v tl => rfl
  have hps : (Yaml.dict ps).truthy = true := by
    cases ps with
    | nil => exact absurd rfl hne2
    | cons k v tl => rfl
  have hts : (Yaml.dict ts).truthy = true := by
    cases ts with
    | nil => exact absurd rfl hne3
    | cons k v tl => rfl
  have hcat : buildCatalog (.dict ks) (.dict ps) (.dict ts) =
      .ok ⟨.list .nil, .list .nil, .list .nil⟩ := by
    rcases h1 with h1 | h1 <;> rcases h2 with h2 | h2 <;> rcases h3 with h3 | h3 <;>
      simp [buildCatalog, Yaml.pyGet, h1, h2, h3, exceptBind_ok, exceptPure]
  exact validate_spec_run _ _ _ _ _ _ _ 0 0 0 [] [] rfl hks hps hts hcat rfl rfl rfl rfl rfl

/-- C1 witness: three nonempty catalog documents, each missing its expected
top-level key, yield a completed run with all counts zero. -/
theorem C1_witness :
    validate_spec ⟨schemaDoc, .dict (.cons "other" (.str "x") .nil),
        .dict (.cons "other" (.str "x") .nil), .dict (.cons "tools" (.list .nil) .nil),
        .null, .null⟩ = .ok (.finished [] 0 0 0) :=
  C1_absent_or_empty_key_is_empty_list
    (.cons "other" (.str "x") .nil) (.cons "other" (.str "x") .nil)
    (.cons "tools" (.list .nil) .nil)
    (Or.inl rfl) (Or.inl rfl) (Or.inr rfl)
    (fun h => nomatch h) (fun h => nomatch h) (fun h => nomatch h)

/-- C1 counterexample: the claim fails for the two remaining cases it
includes.  A catalog document whose parsed content is empty (`None`) aborts
the run as a catalog load failure instead of yielding a zero count, and a
document whose `standards` key holds a null value raises a `TypeError` at the
entity-count step (`len(None)`) instead of proceeding. -/
theorem C1_cex :
    validate_spec ⟨schemaDoc, .null, emptyPropDoc, emptyToolDoc, .null, .null⟩ =
      .ok .catalogLoadFailure ∧
    validate_spec ⟨schemaDoc, .dict (.cons "standards" .null .nil), emptyPropDoc, emptyToolDoc,
        .null, .null⟩ = .error "TypeError: object has no len()" :=
  ⟨rfl, rfl⟩

/-- C2 (amended): a falsy schema document (load failure) aborts the run
before any Violation-producing component executes, and so does a falsy
result for any of the three catalog documents; no error list or counts are
produced on these paths. -/
theorem C2_fatal_load_failures (d : Docs) :
    (d.schema.truthy = false → validate_spec d = .ok .schemaLoadFailure) ∧
    (d.schema.truthy = true →
      (d.standardsData.truthy && d.propertiesData.truthy && d.toolsData.truthy) = false →
      validate_spec d = .ok .catalogLoadFailure) := by
  refine ⟨fun h => ?_, fun h1 h2 => ?_⟩
  · simp [validate_spec, h, exceptPure]
  · simp only [validate_spec, h1, h2, Bool.false_eq_true, ite_false, ite_true]
    rfl

/-- C2 witness: a failed schema load aborts the run. -/
theorem C2_witness :
    validate_spec ⟨.null, emptyStdDoc, emptyPropDoc, emptyToolDoc, .null, .null⟩ =
      .ok .schemaLoadFailure :=
  (C2_fatal_load_failures ⟨.null, emptyStdDoc, emptyPropDoc, emptyToolDoc, .null, .null⟩).1 rfl

/-- C2 counterexample: the mapping and verification documents both failed to
load (`None`), yet the run does not abort — it completes, the Rule Checker
executes, and the verdict is even PASS, contradicting the claim that a load
failure of any loader-handled document aborts the run. -/
theorem C2_cex :
    validate_spec ⟨schemaDoc, emptyStdDoc, emptyPropDoc, emptyToolDoc, .null, .null⟩ =
      .ok (.finished [] 0 0 0) ∧
    Outcome.success (.finished [] 0 0 0) = true :=
  ⟨rfl, rfl⟩

/-- C3 (amended): a catalog entity record lacking an identifier field is
silently skipped by identifier collection (it contributes nothing to the
identifier set), but it is NOT exempt from the rule checks: the
identifier-pattern rule reads the missing identifier as `""`, fails the
required-prefix test, and emits one Violation rendering the identifier as
`None`. -/
theorem C3_missing_id_skipped_but_flagged (fields : YDict)
    (h : fields.lookup "id" = none) :
    collect_ids (Catalog.toDict ⟨.list (.cons (.dict fields) .nil), .list .nil, .list .nil⟩)
        "standards" "id" = .ok .nil ∧
    validate_spec ⟨schemaDoc, .dict (.cons "standards" (.list (.cons (.dict fields) .nil)) .nil),
        emptyPropDoc, emptyToolDoc, .null, .null⟩ =
      .ok (.finished ["Standard ID must start with \x27std:\x27: None"] 1 0 0) := by
  constructor
  · simp [collect_ids, Catalog.toDict, YDict.lookup, Yaml.truthy, Yaml.pyIter, collectFrom, h,
      exceptBind_ok, exceptPure]
  · have hrule : ruleErrors ⟨.list (.cons (.dict fields) .nil), .list .nil, .list .nil⟩ =
        .ok ["Standard ID must start with \x27std:\x27: None"] := by
      simp [ruleErrors, idPatternCheck, vtypeCheck, Yaml.pyIter, Yaml.pyGet, Yaml.pyStartswith,
        h, strLeadsWith, charsLeadWith, Yaml.pyStr, Yaml.pyRepr, exceptBind_ok, exceptPure]
    have hint : validate_referential_integrity
        (Catalog.toDict ⟨.list (.cons (.dict fields) .nil), .list .nil, .list .nil⟩)
        .null .null = .ok [] := rfl
    exact validate_spec_run _ _ _ _ _ _
      ⟨.list (.cons (.dict fields) .nil), .list .nil, .list .nil⟩ 1 0 0 []
      ["Standard ID must start with \x27std:\x27: None"]
      rfl rfl rfl rfl rfl rfl rfl rfl hint hrule

/-- C3 witness: a standards record `{name: "x"}` with no `id` field is
skipped by collection yet draws one prefix Violation citing `None`. -/
theorem C3_witness :
    collect_ids (Catalog.toDict ⟨.list (.cons (.dict (.cons "name" (.str "x") .nil)) .nil),
        .list .nil, .list .nil⟩) "standards" "id" = .ok .nil ∧
    validate_spec ⟨schemaDoc,
        .dict (.cons "standards" (.list (.cons (.dict (.cons "name" (.str "x") .nil)) .nil)) .nil),
        emptyPropDoc, emptyToolDoc, .null, .null⟩ =
      .ok (.finished ["Standard ID must start with \x27std:\x27: None"] 1 0 0) :=
  C3_missing_id_skipped_but_flagged (.cons "name" (.str "x") .nil) rfl

/-- C3 counterexample: the run on a catalog whose only standards record lacks
an identifier field produces one Violation (from the identifier-prefix rule)
and the verdict FAIL — the engine does not stay silent about the record. -/
theorem C3_cex :
    validate_spec ⟨schemaDoc,
        .dict (.cons "standards" (.list (.cons (.dict (.cons "name" (.str "x") .nil)) .nil)) .nil),
        emptyPropDoc, emptyToolDoc, .null, .null⟩ =
      .ok (.finished ["Standard ID must start with \x27std:\x27: None"] 1 0 0) ∧
    Outcome.success (.finished ["Standard ID must start with \x27std:\x27: None"] 1 0 0) = false :=
  ⟨rfl, rfl⟩

/-- C10: a catalog document whose `standards` list holds a bare scalar is
accepted by identifier collection (the non-record item is skipped), but the
identifier-pattern check calls `.get` on the scalar and raises
`AttributeError` — the engine is not total over parseable catalog
documents. -/
theorem C10_bare_scalar_crashes_pattern_check :
    collect_ids (Catalog.toDict ⟨.list (.cons (.str "hello") .nil), .list .nil, .list .nil⟩)
        "standards" "id" = .ok .nil ∧
    validate_spec ⟨schemaDoc, .dict (.cons "standards" (.list (.cons (.str "hello") .nil)) .nil),
        emptyPropDoc, emptyToolDoc, .null, .null⟩ =
      .error "AttributeError: object has no attribute get" :=
  ⟨rfl, rfl⟩

/-- C4 (amended): for every mapping record, a reference field present with a
truthy value is resolved against its namespace — `property_id` against the
Property identifier set, `standard_id` against the Standard identifier set —
and each unresolved such reference yields exactly one Violation naming the
offending identifier and its namespace; a record without reference fields
yields none.  (A present falsy reference such as `""` is skipped, see the
counterexample.) -/
theorem C4_truthy_references_resolved (p s : String) (hp : p ≠ "") (hs : s ≠ "") :
    validate_referential_integrity emptyCatalogDict
        (.dict (.cons "mappings" (.list (.cons (.dict (.cons "property_id" (.str p)
          (.cons "standard_id" (.str s) .nil))) .nil)) .nil)) .null =
      .ok ["Mapping references unknown property: " ++ p,
           "Mapping references unknown standard: " ++ s] ∧
    validate_referential_integrity emptyCatalogDict
        (.dict (.cons "mappings" (.list (.cons (.dict .nil) .nil)) .nil)) .null =
      .ok [] := by
  constructor
  · simp [validate_referential_integrity, collect_ids, emptyCatalogDict, Catalog.toDict,
      YDict.lookup, Yaml.truthy, Yaml.pyIter, Yaml.hasKeyStr, Yaml.subscriptStr,
      mappingCheck, Yaml.pyGet, YList.containsY, collectFrom, Yaml.pyStr, Yaml.pyRepr,
      bne_iff_ne, hp, hs, exceptBind_ok, exceptPure]
  · rfl

/-- C4 witness: a mapping `{property_id: "prop:x", standard_id: "std:u"}`
against an empty catalog yields one Violation per reference, naming the
identifier and the namespace it failed to resolve in. -/
theorem C4_witness :
    validate_referential_integrity emptyCatalogDict
        (.dict (.cons "mappings" (.list (.cons (.dict (.cons "property_id" (.str "prop:x")
          (.cons "standard_id" (.str "std:u") .nil))) .nil)) .nil)) .null =
      .ok ["Mapping references unknown property: " ++ "prop:x",
           "Mapping references unknown standard: " ++ "std:u"] ∧
    validate_referential_integrity emptyCatalogDict
        (.dict (.cons "mappings" (.list (.cons (.dict .nil) .nil)) .nil)) .null =
      .ok [] :=
  C4_truthy_references_resolved "prop:x" "std:u" (by decide) (by decide)

/-- C4 counterexample: a mapping record whose `property_id` field is present
with the empty string — absent from the (empty) Property catalog — yields no
Violation at all: the empty string is falsy, so the reference is skipped
rather than reported as dangling, contrary to the claim. -/
theorem C4_cex :
    YDict.lookup (.cons "property_id" (.str "") .nil) "property_id" = some (.str "") ∧
    validate_referential_integrity emptyCatalogDict
        (.dict (.cons "mappings" (.list (.cons (.dict (.cons "property_id" (.str "") .nil))
          .nil)) .nil)) .null = .ok [] :=
  ⟨rfl, rfl⟩

/-- C5 (amended): for every verification record, a `property_id` present with
a truthy value is resolved against the Property identifier set and a truthy
`tool_id` against the Tool identifier set, each unresolved such reference
yielding exactly one Violation naming the offending identifier and
namespace; any nonempty error list makes the verdict FAIL.  (A present falsy
reference such as `""` is skipped, see the counterexample.) -/
theorem C5_verification_references_resolved (p t : String) (hp : p ≠ "") (ht : t ≠ "") :
    validate_referential_integrity emptyCatalogDict .null
        (.dict (.cons "verifications" (.list (.cons (.dict (.cons "property_id" (.str p)
          (.cons "tool_id" (.str t) .nil))) .nil)) .nil)) =
      .ok ["Verification references unknown property: " ++ p,
           "Verification references unknown tool: " ++ t] ∧
    validate_spec ⟨schemaDoc, emptyStdDoc, emptyPropDoc, emptyToolDoc, .null,
        .dict (.cons "verifications" (.list (.cons (.dict (.cons "property_id" (.str p)
          (.cons "tool_id" (.str t) .nil))) .nil)) .nil)⟩ =
      .ok (.finished ["Verification references unknown property: " ++ p,
           "Verification references unknown tool: " ++ t] 0 0 0) ∧
    (∀ errs n1 n2 n3, errs ≠ [] → Outcome.success (.finished errs n1 n2 n3) = false) := by
  have hint : validate_referential_integrity emptyCatalogDict .null
      (.dict (.cons "verifications" (.list (.cons (.dict (.cons "property_id" (.str p)
        (.cons "tool_id" (.str t) .nil))) .nil)) .nil)) =
      .ok ["Verification references unknown property: " ++ p,
           "Verification references unknown tool: " ++ t] := by
    simp [validate_referential_integrity, collect_ids, emptyCatalogDict, Catalog.toDict,
      YDict.lookup, Yaml.truthy, Yaml.pyIter, Yaml.hasKeyStr, Yaml.subscriptStr,
      verificationCheck, Yaml.pyGet, YList.containsY, collectFrom, Yaml.pyStr, Yaml.pyRepr,
      bne_iff_ne, hp, ht, exceptBind_ok, exceptPure]
  refine ⟨hint, ?_, ?_⟩
  · have hrun := validate_spec_run schemaDoc emptyStdDoc emptyPropDoc emptyToolDoc .null
      (.dict (.cons "verifications" (.list (.cons (.dict (.cons "property_id" (.str p)
        (.cons "tool_id" (.str t) .nil))) .nil)) .nil))
      ⟨.list .nil, .list .nil, .list .nil⟩ 0 0 0
      ["Verification references unknown property: " ++ p,
       "Verification references unknown tool: " ++ t] []
      rfl rfl rfl rfl rfl rfl rfl rfl hint rfl
    simpa using hrun
  · intro errs n1 n2 n3 hne
    cases errs with
    | nil => exact absurd rfl hne
    | cons e tl => rfl

/-- C5 witness: a verification `{property_id: "prop:x", tool_id: "tool:z"}`
against an empty catalog yields the two namespace-specific Violations and the
run verdict is FAIL. -/
theorem C5_witness :
    validate_referential_integrity emptyCatalogDict .null
        (.dict (.cons "verifications" (.list (.cons (.dict (.cons "property_id" (.str "prop:x")
          (.cons "tool_id" (.str "tool:z") .nil))) .nil)) .nil)) =
      .ok ["Verification references unknown property: " ++ "prop:x",
           "Verification references unknown tool: " ++ "tool:z"] ∧
    validate_spec ⟨schemaDoc, emptyStdDoc, emptyPropDoc, emptyToolDoc, .null,
        .dict (.cons "verifications" (.list (.cons (.dict (.cons "property_id" (.str "prop:x")
          (.cons "tool_id" (.str "tool:z") .nil))) .nil)) .nil)⟩ =
      .ok (.finished ["Verification references unknown property: " ++ "prop:x",
           "Verification references unknown tool: " ++ "tool:z"] 0 0 0) ∧
    (∀ errs n1 n2 n3, errs ≠ [] → Outcome.success (.finished errs n1 n2 n3) = false) :=
  C5_verification_references_resolved "prop:x" "tool:z" (by decide) (by decide)

/-- C5 counterexample: a verification record whose `property_id` is present
with the empty string — unresolvable in the empty Property catalog — yields
no Violation: the falsy reference is skipped, contrary to the claim that
every present unresolved reference is reported. -/
theorem C5_cex :
    YDict.lookup (.cons "property_id" (.str "") .nil) "property_id" = some (.str "") ∧
    validate_referential_integrity emptyCatalogDict .null
        (.dict (.cons "verifications" (.list (.cons (.dict (.cons "property_id" (.str "") .nil))
          .nil)) .nil)) = .ok [] :=
  ⟨rfl, rfl⟩

/-- C6 (amended): a Property whose `verification_type` is present with a
truthy value outside the fixed enumeration {`library`, `custom_property`,
`ai_audit`, `manual`} draws exactly one Violation naming the value and the
property identifier; a Property without the field draws none.  (A present
falsy value such as `""` is skipped, see the counterexample.) -/
theorem C6_vtype_enumeration (v : String) (hv : v ≠ "")
    (h1 : v ≠ "library") (h2 : v ≠ "custom_property") (h3 : v ≠ "ai_audit")
    (h4 : v ≠ "manual") :
    validate_spec ⟨schemaDoc, emptyStdDoc,
        .dict (.cons "properties" (.list (.cons (.dict (.cons "id" (.str "prop:x")
          (.cons "verification_type" (.str v) .nil))) .nil)) .nil),
        emptyToolDoc, .null, .null⟩ =
      .ok (.finished ["Invalid verification_type \x27" ++ v ++ "\x27 in " ++ "prop:x"] 0 1 0) ∧
    validate_spec ⟨schemaDoc, emptyStdDoc,
        .dict (.cons "properties" (.list (.cons (.dict (.cons "id" (.str "prop:x") .nil))
          .nil)) .nil),
        emptyToolDoc, .null, .null⟩ =
      .ok (.finished [] 0 1 0) := by
  constructor
  · have hrule : ruleErrors ⟨.list .nil,
        .list (.cons (.dict (.cons "id" (.str "prop:x")
          (.cons "verification_type" (.str v) .nil))) .nil), .list .nil⟩ =
        .ok ["Invalid verification_type \x27" ++ v ++ "\x27 in " ++ "prop:x"] := by
      simp [ruleErrors, idPatternCheck, vtypeCheck, Yaml.pyIter, Yaml.pyGet,
        Yaml.pyStartswith, YDict.lookup, strLeadsWith, charsLeadWith, Yaml.truthy,
        valid_types, Yaml.beq, Yaml.pyStr, Yaml.pyRepr, bne_iff_ne, hv, h1, h2, h3, h4,
        exceptBind_ok, exceptPure]
    have hrun := validate_spec_run schemaDoc emptyStdDoc
      (.dict (.cons "properties" (.list (.cons (.dict (.cons "id" (.str "prop:x")
        (.cons "verification_type" (.str v) .nil))) .nil)) .nil))
      emptyToolDoc .null .null
      ⟨.list .nil, .list (.cons (.dict (.cons "id" (.str "prop:x")
        (.cons "verification_type" (.str v) .nil))) .nil), .list .nil⟩ 0 1 0
      [] ["Invalid verification_type \x27" ++ v ++ "\x27 in " ++ "prop:x"]
      rfl rfl rfl rfl rfl rfl rfl rfl rfl hrule
    simpa using hrun
  · rfl

/-- C6 witness: `verification_type: "bogus"` draws one Violation citing the
value and the property; the same property without the field draws none. -/
theorem C6_witness :
    validate_spec ⟨schemaDoc, emptyStdDoc,
        .dict (.cons "properties" (.list (.cons (.dict (.cons "id" (.str "prop:x")
          (.cons "verification_type" (.str "bogus") .nil))) .nil)) .nil),
        emptyToolDoc, .null, .null⟩ =
      .ok (.finished ["Invalid verification_type \x27" ++ "bogus" ++ "\x27 in " ++ "prop:x"]
        0 1 0) ∧
    validate_spec ⟨schemaDoc, emptyStdDoc,
        .dict (.cons "properties" (.list (.cons (.dict (.cons "id" (.str "prop:x") .nil))
          .nil)) .nil),
        emptyToolDoc, .null, .null⟩ =
      .ok (.finished [] 0 1 0) :=
  C6_vtype_enumeration "bogus" (by decide) (by decide) (by decide) (by decide) (by decide)

/-- C6 counterexample: `verification_type: ""` is present and outside the
enumeration, yet the run yields no Violation — the empty string is falsy and
is treated like an absent field, contrary to the claim. -/
theorem C6_cex :
    YDict.lookup (.cons "id" (.str "prop:x") (.cons "verification_type" (.str "") .nil))
        "verification_type" = some (.str "") ∧
    (valid_types.any fun t => Yaml.beq (.str "") t) = false ∧
    validate_spec ⟨schemaDoc, emptyStdDoc,
        .dict (.cons "properties" (.list (.cons (.dict (.cons "id" (.str "prop:x")
          (.cons "verification_type" (.str "") .nil))) .nil)) .nil),
        emptyToolDoc, .null, .null⟩ =
      .ok (.finished [] 0 1 0) :=
  ⟨rfl, rfl, rfl⟩

/-- A list of well-formed entity records, each a dict with just a string
identifier. -/
def idRecs : List String → YList
  | [] => .nil
  | s :: rest => .cons (.dict (.cons "id" (.str s) .nil)) (idRecs rest)

/-- C8: over any list of identifier-bearing entity records, the ID-pattern
rule yields exactly one Violation (citing the identifier) for each identifier
that does not start with the required namespace string, and none for the
others; and on a full run with one offending Standard, Property and Tool
entity, these Violations appear whatever the mapping and verification
documents contain — the rule is checked against catalog entities,
independent of references. -/
theorem C8_id_pattern_rule :
    (∀ (pfx msg : String) (ids : List String),
      idPatternCheck pfx msg (idRecs ids) =
        .ok ((ids.filter fun s => !(strLeadsWith s pfx)).map fun s => msg ++ s)) ∧
    (∀ (s p t : String),
      strLeadsWith s "std:" = false → strLeadsWith p "prop:" = false →
      strLeadsWith t "tool:" = false →
      ∀ (pts vf : Yaml) (ints : List String),
        validate_referential_integrity
          (Catalog.toDict ⟨.list (idRecs [s]), .list (idRecs [p]), .list (idRecs [t])⟩)
          pts vf = .ok ints →
        validate_spec ⟨schemaDoc, .dict (.cons "standards" (.list (idRecs [s])) .nil),
            .dict (.cons "properties" (.list (idRecs [p])) .nil),
            .dict (.cons "tools" (.list (idRecs [t])) .nil), pts, vf⟩ =
          .ok (.finished (ints ++
            ["Standard ID must start with \x27std:\x27: " ++ s,
             "Property ID must start with \x27prop:\x27: " ++ p,
             "Tool ID must start with \x27tool:\x27: " ++ t]) 1 1 1)) := by
  have charac : ∀ (pfx msg : String) (ids : List String),
      idPatternCheck pfx msg (idRecs ids) =
        .ok ((ids.filter fun s => !(strLeadsWith s pfx)).map fun s => msg ++ s) := by
    intro pfx msg ids
    induction ids with
    | nil => rfl
    | cons s rest ih =>
      cases hsw : strLeadsWith s pfx <;>
        simp [idRecs, idPatternCheck, Yaml.pyGet, YDict.lookup, Yaml.pyStartswith, hsw, ih,
          Yaml.pyStr, List.filter, exceptBind_ok, exceptPure]
  refine ⟨charac, fun s p t hs hp ht pts vf ints hint => ?_⟩
  have hrule : ruleErrors ⟨.list (idRecs [s]), .list (idRecs [p]), .list (idRecs [t])⟩ =
      .ok (["Standard ID must start with \x27std:\x27: " ++ s] ++
           ["Property ID must start with \x27prop:\x27: " ++ p] ++
           ["Tool ID must start with \x27tool:\x27: " ++ t] ++ []) := by
    have e1 := charac "std:" "Standard ID must start with \x27std:\x27: " [s]
    have e2 := charac "prop:" "Property ID must start with \x27prop:\x27: " [p]
    have e3 := charac "tool:" "Tool ID must start with \x27tool:\x27: " [t]
    rw [List.filter_cons_of_pos (by simp [hs])] at e1
    rw [List.filter_cons_of_pos (by simp [hp])] at e2
    rw [List.filter_cons_of_pos (by simp [ht])] at e3
    simp only [List.filter_nil, List.map] at e1 e2 e3
    simp only [idRecs] at e1 e2 e3
    simp [ruleErrors, Yaml.pyIter, e1, e2, e3, vtypeCheck, idRecs, Yaml.pyGet, YDict.lookup,
      Yaml.truthy, exceptBind_ok, exceptPure]
  have hrun := validate_spec_run schemaDoc
    (.dict (.cons "standards" (.list (idRecs [s])) .nil))
    (.dict (.cons "properties" (.list (idRecs [p])) .nil))
    (.dict (.cons "tools" (.list (idRecs [t])) .nil)) pts vf
    ⟨.list (idRecs [s]), .list (idRecs [p]), .list (idRecs [t])⟩ 1 1 1 ints
    (["Standard ID must start with \x27std:\x27: " ++ s] ++
     ["Property ID must start with \x27prop:\x27: " ++ p] ++
     ["Tool ID must start with \x27tool:\x27: " ++ t] ++ [])
    rfl rfl rfl rfl rfl rfl rfl rfl hint hrule
  simpa using hrun

/-- C8 witness: a Standard `"bad-id"`, a Property `"x"` and a Tool `"y"` each
draw exactly one pattern Violation citing the identifier, with no mapping or
verification document present at all. -/
theorem C8_witness :
    validate_spec ⟨schemaDoc, .dict (.cons "standards" (.list (idRecs ["bad-id"])) .nil),
        .dict (.cons "properties" (.list (idRecs ["x"])) .nil),
        .dict (.cons "tools" (.list (idRecs ["y"])) .nil), .null, .null⟩ =
      .ok (.finished (([] : List String) ++
        ["Standard ID must start with \x27std:\x27: " ++ "bad-id",
         "Property ID must start with \x27prop:\x27: " ++ "x",
         "Tool ID must start with \x27tool:\x27: " ++ "y"]) 1 1 1) :=
  C8_id_pattern_rule.2 "bad-id" "x" "y" rfl rfl rfl .null .null [] rfl

/-- Inversion of a completed run: the error list is exactly the Resolver
output followed by the Rule Checker output for the built catalog. -/
theorem validate_spec_finished_inv (d : Docs) (errs : List String) (n1 n2 n3 : Nat)
    (h : validate_spec d = .ok (.finished errs n1 n2 n3)) :
    ∃ cat ints rules,
      buildCatalog d.standardsData d.propertiesData d.toolsData = .ok cat ∧
      validate_referential_integrity cat.toDict d.propToStd d.verifications = .ok ints ∧
      ruleErrors cat = .ok rules ∧
      errs = ints ++ rules := by
  simp only [validate_spec] at h
  split at h
  · have h2 : (Except.ok Outcome.schemaLoadFailure : Except String Outcome) =
        .ok (.finished errs n1 n2 n3) := h
    simp at h2
  · split at h
    · have h2 : (Except.ok Outcome.catalogLoadFailure : Except String Outcome) =
          .ok (.finished errs n1 n2 n3) := h
      simp at h2
    · cases hcat : buildCatalog d.standardsData d.propertiesData d.toolsData with
      | error e => simp [hcat, exceptBind_error] at h
      | ok cat =>
        simp only [hcat, exceptBind_ok] at h
        cases hl1 : cat.standards.pyLen with
        | error e => simp [hl1, exceptBind_error] at h
        | ok m1 =>
          simp only [hl1, exceptBind_ok] at h
          cases hl2 : cat.properties.pyLen with
          | error e => simp [hl2, exceptBind_error] at h
          | ok m2 =>
            simp only [hl2, exceptBind_ok] at h
            cases hl3 : cat.tools.pyLen with
            | error e => simp [hl3, exceptBind_error] at h
            | ok m3 =>
              simp only [hl3, exceptBind_ok] at h
              cases hint : validate_referential_integrity cat.toDict d.propToStd
                  d.verifications with
              | error e => simp [hint, exceptBind_error] at h
              | ok ints =>
                simp only [hint, exceptBind_ok] at h
                cases hrule : ruleErrors cat with
                | error e => simp [hrule, exceptBind_error] at h
                | ok rules =>
                  simp only [hrule, exceptBind_ok, exceptPure, Except.ok.injEq] at h
                  exact ⟨cat, ints, rules, rfl, hint, hrule, by
                    cases h with
                    | _ => simp_all [Outcome.finished.injEq]⟩

/-- C7: in every completed run the final Violation sequence is the Resolver
output followed by the Rule Checker output; within the Resolver, a run over
a mappings document and a verifications document emits all mapping
violations (in record order) before all verification violations; the verdict
is FAIL iff the sequence is nonempty; and the exit status is 0 on PASS and
1 on FAIL. -/
theorem C7_report_aggregation (d : Docs) (errs : List String) (n1 n2 n3 : Nat)
    (h : validate_spec d = .ok (.finished errs n1 n2 n3)) :
    (∃ cat ints rules,
      buildCatalog d.standardsData d.propertiesData d.toolsData = .ok cat ∧
      validate_referential_integrity cat.toDict d.propToStd d.verifications = .ok ints ∧
      ruleErrors cat = .ok rules ∧
      errs = ints ++ rules) ∧
    (∀ (catalog : YDict) (props stds tools ms vs : YList) (mi vi : List String),
      collect_ids catalog "standards" "id" = .ok stds →
      collect_ids catalog "tools" "id" = .ok tools →
      collect_ids catalog "properties" "id" = .ok props →
      mappingCheck props stds ms = .ok mi →
      verificationCheck props tools vs = .ok vi →
      validate_referential_integrity catalog
          (.dict (.cons "mappings" (.list ms) .nil))
          (.dict (.cons "verifications" (.list vs) .nil)) = .ok (mi ++ vi)) ∧
    (Outcome.success (.finished errs n1 n2 n3) = true ↔ errs = []) ∧
    exitCode (validate_spec d) = (if errs = [] then 0 else 1) := by
  refine ⟨validate_spec_finished_inv d errs n1 n2 n3 h, ?_, ?_, ?_⟩
  · intro catalog props stds tools ms vs mi vi h1 h2 h3 h4 h5
    simp [validate_referential_integrity, h1, h2, h3, h4, h5, Yaml.truthy,
      Yaml.hasKeyStr, YDict.lookup, Yaml.subscriptStr, Yaml.pyIter,
      exceptBind_ok, exceptPure]
  · cases errs with
    | nil => simp [Outcome.success]
    | cons e tl => simp [Outcome.success]
  · rw [h]
    cases errs with
    | nil => rfl
    | cons e tl =>
      simp only [exitCode, Outcome.success, List.isEmpty_cons]
      rw [if_neg (by simp), if_neg (by simp)]

/-- C7 witness: a run with one bad Standard identifier completes with one
Violation, decomposes as Resolver output (empty) followed by the Rule
Checker output, has verdict FAIL, and exit status 1. -/
theorem C7_witness :
    (∃ cat ints rules,
      buildCatalog (Yaml.dict (.cons "standards" (.list (idRecs ["bad-id"])) .nil))
        emptyPropDoc emptyToolDoc = .ok cat ∧
      validate_referential_integrity cat.toDict .null .null = .ok ints ∧
      ruleErrors cat = .ok rules ∧
      ["Standard ID must start with \x27std:\x27: bad-id"] = ints ++ rules) ∧
    (∀ (catalog : YDict) (props stds tools ms vs : YList) (mi vi : List String),
      collect_ids catalog "standards" "id" = .ok stds →
      collect_ids catalog "tools" "id" = .ok tools →
      collect_ids catalog "properties" "id" = .ok props →
      mappingCheck props stds ms = .ok mi →
      verificationCheck props tools vs = .ok vi →
      validate_referential_integrity catalog
          (.dict (.cons "mappings" (.list ms) .nil))
          (.dict (.cons "verifications" (.list vs) .nil)) = .ok (mi ++ vi)) ∧
    (Outcome.success (.finished ["Standard ID must start with \x27std:\x27: bad-id"] 1 0 0) =
        true ↔ ["Standard ID must start with \x27std:\x27: bad-id"] = []) ∧
    exitCode (validate_spec ⟨schemaDoc,
        .dict (.cons "standards" (.list (idRecs ["bad-id"])) .nil),
        emptyPropDoc, emptyToolDoc, .null, .null⟩) =
      (if ["Standard ID must start with \x27std:\x27: bad-id"] = ([] : List String)
        then 0 else 1) :=
  C7_report_aggregation ⟨schemaDoc,
    .dict (.cons "standards" (.list (idRecs ["bad-id"])) .nil),
    emptyPropDoc, emptyToolDoc, .null, .null⟩
    ["Standard ID must start with \x27std:\x27: bad-id"] 1 0 0 rfl

/-- The mappings loop consumes the identifier sets only through membership:
set representations with equal membership give identical output. -/
theorem mappingCheck_mem_inv (props1 props2 stds1 stds2 : YList)
    (h1 : ∀ y, props1.containsY y = props2.containsY y)
    (h2 : ∀ y, stds1.containsY y = stds2.containsY y) :
    ∀ ms : YList, mappingCheck props1 stds1 ms = mappingCheck props2 stds2 ms
  | .nil => rfl
  | .cons m tl => by
    have ih := mappingCheck_mem_inv props1 props2 stds1 stds2 h1 h2 tl
    simp only [mappingCheck]
    cases hp : m.pyGet "property_id" Yaml.null with
    | error e => simp [hp, exceptBind_error]
    | ok pid =>
      simp only [hp, exceptBind_ok]
      cases hsid : m.pyGet "standard_id" Yaml.null with
      | error e => simp [hsid, exceptBind_error]
      | ok sid => simp [hsid, exceptBind_ok, h1, h2, ih]

/-- As `mappingCheck_mem_inv`, for the verifications loop. -/
theorem verificationCheck_mem_inv (props1 props2 tools1 tools2 : YList)
    (h1 : ∀ y, props1.containsY y = props2.containsY y)
    (h2 : ∀ y, tools1.containsY y = tools2.containsY y) :
    ∀ vs : YList, verificationCheck props1 tools1 vs = verificationCheck props2 tools2 vs
  | .nil => rfl
  | .cons v tl => by
    have ih := verificationCheck_mem_inv props1 props2 tools1 tools2 h1 h2 tl
    simp only [verificationCheck]
    cases hp : v.pyGet "property_id" Yaml.null with
    | error e => simp [hp, exceptBind_error]
    | ok pid =>
      simp only [hp, exceptBind_ok]
      cases htid : v.pyGet "tool_id" Yaml.null with
      | error e => simp [htid, exceptBind_error]
      | ok tid => simp [htid, exceptBind_ok, h1, h2, ih]

/-- C9: the engine is a deterministic function of its input documents; the
Resolver's output depends on the collected identifier sets only through
membership (so no set-iteration order can permute it); and in any two
completed runs over the same schema and catalog documents, the Rule Checker
contribution to the final sequence is the same list, regardless of what the
mapping and verification documents contain — Resolver and Rule Checker
violations compose additively without suppressing or altering each other. -/
theorem C9_determinism_and_independence :
    (∀ d1 d2 : Docs, d1 = d2 → validate_spec d1 = validate_spec d2) ∧
    (∀ (props1 props2 stds1 stds2 ms : YList),
      (∀ y, props1.containsY y = props2.containsY y) →
      (∀ y, stds1.containsY y = stds2.containsY y) →
      mappingCheck props1 stds1 ms = mappingCheck props2 stds2 ms) ∧
    (∀ (props1 props2 tools1 tools2 vs : YList),
      (∀ y, props1.containsY y = props2.containsY y) →
      (∀ y, tools1.containsY y = tools2.containsY y) →
      verificationCheck props1 tools1 vs = verificationCheck props2 tools2 vs) ∧
    (∀ (sch sd pd td pts1 vf1 pts2 vf2 : Yaml) (errs1 errs2 : List String)
        (a1 b1 c1 a2 b2 c2 : Nat),
      validate_spec ⟨sch, sd, pd, td, pts1, vf1⟩ = .ok (.finished errs1 a1 b1 c1) →
      validate_spec ⟨sch, sd, pd, td, pts2, vf2⟩ = .ok (.finished errs2 a2 b2 c2) →
      ∃ ints1 ints2 rules, errs1 = ints1 ++ rules ∧ errs2 = ints2 ++ rules) := by
  refine ⟨fun d1 d2 hd => hd ▸ rfl,
    fun props1 props2 stds1 stds2 ms h1 h2 =>
      mappingCheck_mem_inv props1 props2 stds1 stds2 h1 h2 ms,
    fun props1 props2 tools1 tools2 vs h1 h2 =>
      verificationCheck_mem_inv props1 props2 tools1 tools2 h1 h2 vs, ?_⟩
  intro sch sd pd td pts1 vf1 pts2 vf2 errs1 errs2 a1 b1 c1 a2 b2 c2 hrun1 hrun2
  obtain ⟨cat1, ints1, rules1, hcat1, hint1, hrule1, he1⟩ :=
    validate_spec_finished_inv _ _ _ _ _ hrun1
  obtain ⟨cat2, ints2, rules2, hcat2, hint2, hrule2, he2⟩ :=
    validate_spec_finished_inv _ _ _ _ _ hrun2
  have hcateq : cat1 = cat2 := Except.ok.inj (hcat1.symm.trans hcat2)
  subst hcateq
  have hruleeq : rules1 = rules2 := Except.ok.inj (hrule1.symm.trans hrule2)
  subst hruleeq
  exact ⟨ints1, ints2, rules1, he1, he2⟩

/-- C9 witness: two representations of the collected Property identifier set
with the same membership (one with a duplicated insertion) give the Resolver
identical output on the same mapping records. -/
theorem C9_witness :
    mappingCheck (.cons (.str "prop:a") (.cons (.str "prop:a") .nil)) (.cons (.str "std:a") .nil)
        (.cons (.dict (.cons "property_id" (.str "prop:b")
          (.cons "standard_id" (.str "std:a") .nil))) .nil) =
      mappingCheck (.cons (.str "prop:a") .nil) (.cons (.str "std:a") .nil)
        (.cons (.dict (.cons "property_id" (.str "prop:b")
          (.cons "standard_id" (.str "std:a") .nil))) .nil) :=
  C9_determinism_and_independence.2.1 _ _ _ _ _
    (fun y => by simp [YList.containsY]) (fun y => rfl)
